import Mathlib

/-!
Verification of the Planet Explorer core (entity registry, game state machine,
interaction protocol, world/camera driver) against its design spec.

The JavaScript sources are shallowly embedded: numbers are modelled as `ℚ`
(the game logic is exact rational arithmetic except for the transcendental
helpers `Math.cos`/`Math.sin`/`Math.sqrt`/`Math.atan2`, which are handled as
documented at each use site), objects are records, and per-frame mutation is
explicit state passing.
-/

/-- Controls state of the ship (`this.keys` in spaceship.js): the set of
currently-held logical controls. -/
structure Keys where
  w : Bool
  a : Bool
  s : Bool
  d : Bool
  space : Bool
  e : Bool
deriving DecidableEq

/-- Movable entity (spaceship.js `Spaceship`). The `sprite`/`spriteLoaded`
fields are presentation-only and are omitted. -/
structure Spaceship where
  x : ℚ
  y : ℚ
  width : ℚ
  height : ℚ
  rotation : ℚ
  speed : ℚ
  speedScale : ℚ
  baseMaxSpeed : ℚ
  baseAcceleration : ℚ
  baseDeceleration : ℚ
  baseRotationSpeed : ℚ
  baseBoostSpeed : ℚ
  maxSpeed : ℚ
  acceleration : ℚ
  deceleration : ℚ
  rotationSpeed : ℚ
  boostCharge : ℚ
  maxBoostCharge : ℚ
  boostChargeRate : ℚ
  boostSpeed : ℚ
  isBoosting : Bool
  boostDecayRate : ℚ
  radius : ℚ
  keys : Keys
deriving DecidableEq

/-- The `Spaceship` constructor (spaceship.js lines 17-104): base values are
fixed constants, derived values are base × speedScale, radius is width/2,
all controls start released. -/
def Spaceship.init (x y speedScale width height : ℚ) : Spaceship where
  x := x
  y := y
  width := width
  height := height
  rotation := 0
  speed := 0
  speedScale := speedScale
  baseMaxSpeed := 5
  baseAcceleration := 1/10
  baseDeceleration := 1/20
  baseRotationSpeed := 1/10
  baseBoostSpeed := 10
  maxSpeed := 5 * speedScale
  acceleration := (1/10) * speedScale
  deceleration := (1/20) * speedScale
  rotationSpeed := (1/10) * speedScale
  boostCharge := 0
  maxBoostCharge := 100
  boostChargeRate := 1/2
  boostSpeed := 10 * speedScale
  isBoosting := false
  boostDecayRate := 2
  radius := width / 2
  keys := ⟨false, false, false, false, false, false⟩

/-- `Spaceship.setSpeedScale` (spaceship.js lines 121-128): recomputes the
derived rates from the new scale. Note that `speed` itself is not touched. -/
def Spaceship.setSpeedScale (scale : ℚ) (sh : Spaceship) : Spaceship :=
  { sh with
    speedScale := scale
    maxSpeed := sh.baseMaxSpeed * scale
    acceleration := sh.baseAcceleration * scale
    deceleration := sh.baseDeceleration * scale
    rotationSpeed := sh.baseRotationSpeed * scale
    boostSpeed := sh.baseBoostSpeed * scale }

/-- `Spaceship.setSize` (spaceship.js lines 111-115). -/
def Spaceship.setSize (newWidth newHeight : ℚ) (sh : Spaceship) : Spaceship :=
  { sh with width := newWidth, height := newHeight, radius := newWidth / 2 }

/-- `Spaceship.handleKeyDown` (spaceship.js lines 134-155): sets the named
logical control. -/
def Spaceship.handleKeyDown (key : String) (sh : Spaceship) : Spaceship :=
  if key = "w" then { sh with keys := { sh.keys with w := true } }
  else if key = "a" then { sh with keys := { sh.keys with a := true } }
  else if key = "s" then { sh with keys := { sh.keys with s := true } }
  else if key = "d" then { sh with keys := { sh.keys with d := true } }
  else if key = " " then { sh with keys := { sh.keys with space := true } }
  else if key = "e" then { sh with keys := { sh.keys with e := true } }
  else sh

/-- `Spaceship.handleKeyUp` (spaceship.js lines 161-182): clears the named
logical control. -/
def Spaceship.handleKeyUp (key : String) (sh : Spaceship) : Spaceship :=
  if key = "w" then { sh with keys := { sh.keys with w := false } }
  else if key = "a" then { sh with keys := { sh.keys with a := false } }
  else if key = "s" then { sh with keys := { sh.keys with s := false } }
  else if key = "d" then { sh with keys := { sh.keys with d := false } }
  else if key = " " then { sh with keys := { sh.keys with space := false } }
  else if key = "e" then { sh with keys := { sh.keys with e := false } }
  else sh

/-- The speed part of `Spaceship.update` (spaceship.js lines 197-217):
accelerate and clamp at `maxSpeed` under W, accelerate backwards and clamp at
`-maxSpeed` under S, otherwise decelerate towards 0 with a snap to 0 on sign
change. The source mutates `speed` and then conditionally overwrites it; the
branches below are that same computation written as one expression. -/
def stepSpeed (keys : Keys) (speed accel decel maxS : ℚ) : ℚ :=
  if keys.w then
    if speed + accel > maxS then maxS else speed + accel
  else if keys.s then
    if speed - accel < -maxS then -maxS else speed - accel
  else if speed > 0 then
    if speed - decel < 0 then 0 else speed - decel
  else if speed < 0 then
    if speed + decel > 0 then 0 else speed + decel
  else speed

/-- The boost part of `Spaceship.update` (spaceship.js lines 219-242):
while not boosting, charge by `rate` capped at `maxC` and start boosting when
space is held with positive charge; while boosting, drain by `decay` and end
the boost (flooring the charge at 0) when depleted or space released.
Returns (new charge, new isBoosting). -/
def stepBoost (keys : Keys) (charge maxC rate decay : ℚ) (boosting : Bool) :
    ℚ × Bool :=
  if !boosting then
    let c := if charge < maxC then
        (if charge + rate > maxC then maxC else charge + rate)
      else charge
    (c, keys.space && decide (0 < c))
  else
    let c := charge - decay
    if c ≤ 0 || !keys.space then (max 0 c, false) else (c, true)

/-- `Spaceship.update` (spaceship.js lines 187-250). The parameter `dir`
stands for `(Math.cos, Math.sin)` applied to the new rotation; it is kept
abstract because the computable fragment used here has no real cosine. The
displacement uses `currentSpeed`, which adds the boost overlay on top of the
updated base speed while boosting. -/
def Spaceship.update (dir : ℚ → ℚ × ℚ) (sh : Spaceship) : Spaceship :=
  let rot1 := if sh.keys.a then sh.rotation - sh.rotationSpeed else sh.rotation
  let rot2 := if sh.keys.d then rot1 + sh.rotationSpeed else rot1
  let speed1 := stepSpeed sh.keys sh.speed sh.acceleration sh.deceleration sh.maxSpeed
  let cb := stepBoost sh.keys sh.boostCharge sh.maxBoostCharge sh.boostChargeRate
    sh.boostDecayRate sh.isBoosting
  let currentSpeed := if cb.2 then speed1 + sh.boostSpeed else speed1
  { sh with
    rotation := rot2
    speed := speed1
    boostCharge := cb.1
    isBoosting := cb.2
    x := sh.x + (dir rot2).1 * currentSpeed
    y := sh.y + (dir rot2).2 * currentSpeed }

/-- `Spaceship.getBoostPercentage` (spaceship.js lines 319-321). -/
def Spaceship.getBoostPercentage (sh : Spaceship) : ℚ :=
  sh.boostCharge / sh.maxBoostCharge * 100

/-- The landing eligibility test shared by InteractionSystem.update and
Game.update: `canLand = Math.abs(speed) < maxSpeed * 0.5`. -/
def canLand (speed maxS : ℚ) : Bool :=
  decide (|speed| < maxS * (1/2))

/-- A fixed direction oracle used for concrete evaluations (a ship whose
rotation has cosine 1 and sine 0). -/
def dirX : ℚ → ℚ × ℚ := fun _ => (1, 0)

/-- A sequence of public operations on the player ship: construct with the
default 0.3 speed scale, press W, run one frame (speed becomes 3/100), release
W, lower the speed scale to 1/200 via the speed slider (maxSpeed becomes 1/40
while speed stays 3/100), and run one more frame. -/
def scaleDropTrace : Spaceship :=
  Spaceship.update dirX
    (Spaceship.setSpeedScale (1/200)
      (Spaceship.handleKeyUp "w"
        (Spaceship.update dirX
          (Spaceship.handleKeyDown "w"
            (Spaceship.init 2500 2500 (3/10) 42 21)))))

section SpeedBound

/-- Helper: `stepSpeed` preserves the bound `|speed| ≤ maxSpeed`. -/
theorem stepSpeed_bound (keys : Keys) (speed accel decel maxS : ℚ)
    (haccel : 0 ≤ accel) (hdecel : 0 ≤ decel) (hmax : 0 ≤ maxS)
    (h : |speed| ≤ maxS) : |stepSpeed keys speed accel decel maxS| ≤ maxS := by
  rw [abs_le] at h ⊢
  obtain ⟨h1, h2⟩ := h
  unfold stepSpeed
  split_ifs <;> constructor <;> linarith

/-- C1 (counterexample): the claimed invariant `|speed| ≤ maxSpeed` after one
step fails on a state reached through public operations. `scaleDropTrace`
holds W for one frame (speed 3/100), then calls `setSpeedScale (1/200)`
(spaceship.js lines 121-128 lower `maxSpeed` to `1/40` without touching
`speed`), then runs one `Spaceship.update` with no keys held: the
deceleration branch only subtracts `deceleration = 1/4000`, leaving
`speed = 119/4000 > 100/4000 = maxSpeed`. -/
theorem speed_bound_fails_after_scale_drop :
    ¬ (|scaleDropTrace.speed| ≤ scaleDropTrace.maxSpeed) := by
  have hs : scaleDropTrace.speed = 119/4000 := by
    norm_num [scaleDropTrace, Spaceship.init, Spaceship.handleKeyDown,
      Spaceship.handleKeyUp, Spaceship.setSpeedScale, Spaceship.update,
      stepSpeed, stepBoost, dirX]
  have hm : scaleDropTrace.maxSpeed = 100/4000 := by
    norm_num [scaleDropTrace, Spaceship.init, Spaceship.handleKeyDown,
      Spaceship.handleKeyUp, Spaceship.setSpeedScale, Spaceship.update,
      stepSpeed, stepBoost, dirX]
  rw [hs, hm]
  intro h
  rw [abs_le] at h
  have := h.2
  norm_num at this

/-- C1 (amended): one `Spaceship.update` step preserves `|speed| ≤ maxSpeed`
(transient boost overlay excluded, as it only enters the displacement) from
any state that already satisfies the bound and has nonnegative acceleration,
deceleration and max speed; the bound is an invariant of stepping but is not
restored by a step after `setSpeedScale` lowers `maxSpeed` below the current
speed. -/
theorem speed_bound_preserved (dir : ℚ → ℚ × ℚ) (sh : Spaceship)
    (haccel : 0 ≤ sh.acceleration) (hdecel : 0 ≤ sh.deceleration)
    (hmax : 0 ≤ sh.maxSpeed) (h : |sh.speed| ≤ sh.maxSpeed) :
    |(sh.update dir).speed| ≤ (sh.update dir).maxSpeed := by
  have hspeed : (sh.update dir).speed =
      stepSpeed sh.keys sh.speed sh.acceleration sh.deceleration sh.maxSpeed := rfl
  have hmaxeq : (sh.update dir).maxSpeed = sh.maxSpeed := rfl
  rw [hspeed, hmaxeq]
  exact stepSpeed_bound sh.keys sh.speed sh.acceleration sh.deceleration
    sh.maxSpeed haccel hdecel hmax h

/-- Witness for `speed_bound_preserved` at the freshly constructed ship. -/
theorem speed_bound_preserved_witness :
    |((Spaceship.init 2500 2500 (3/10) 42 21).update dirX).speed| ≤
      ((Spaceship.init 2500 2500 (3/10) 42 21).update dirX).maxSpeed :=
  speed_bound_preserved dirX (Spaceship.init 2500 2500 (3/10) 42 21)
    (by norm_num [Spaceship.init]) (by norm_num [Spaceship.init])
    (by norm_num [Spaceship.init]) (by norm_num [Spaceship.init])

end SpeedBound

section LandingEligibility

/-- C3: landing eligibility is the pure function `|s| < 0.5 * maxS` of the
player's scalar speed and max speed; the boundary `s = 0.5 * maxS` is
ineligible and `s = -0.4 * maxS` is eligible for every positive max speed. -/
theorem landing_eligibility_pure (s maxS : ℚ) :
    (canLand s maxS = true ↔ |s| < (1/2) * maxS) ∧
    (0 < maxS →
      canLand ((1/2) * maxS) maxS = false ∧
      canLand (-(2/5) * maxS) maxS = true) := by
  constructor
  · simp only [canLand, decide_eq_true_eq]
    constructor <;> intro h <;> linarith
  · intro hpos
    constructor
    · simp only [canLand, decide_eq_false_iff_not, not_lt]
      rw [abs_of_nonneg (by linarith)]
      linarith
    · simp only [canLand, decide_eq_true_eq]
      rw [abs_of_nonpos (by linarith)]
      linarith

/-- Witness for `landing_eligibility_pure` at speed 0 and max speed 1. -/
theorem landing_eligibility_pure_witness :
    canLand ((1/2) * 1) 1 = false ∧ canLand (-(2/5) * 1) 1 = true :=
  (landing_eligibility_pure 0 1).2 (by norm_num)

end LandingEligibility

section BoostBounds

/-- Helper: `stepBoost` keeps the charge inside `[0, maxC]`. -/
theorem stepBoost_bound (keys : Keys) (charge maxC rate decay : ℚ)
    (boosting : Bool) (h0 : 0 ≤ charge) (h1 : charge ≤ maxC)
    (hrate : 0 ≤ rate) (hdecay : 0 ≤ decay) :
    0 ≤ (stepBoost keys charge maxC rate decay boosting).1 ∧
    (stepBoost keys charge maxC rate decay boosting).1 ≤ maxC := by
  unfold stepBoost
  cases boosting
  · simp only [Bool.not_false, if_true]
    split_ifs <;> constructor <;> linarith
  · simp only [Bool.not_true, Bool.false_eq_true, if_false]
    split_ifs with hcond <;> (try dsimp only)
    · exact ⟨le_max_left 0 _, max_le (by linarith) (by linarith)⟩
    · simp only [Bool.or_eq_true, decide_eq_true_eq, not_or,
        Bool.not_eq_true'] at hcond
      have hgt : 0 < charge - decay := lt_of_not_le hcond.1
      constructor <;> linarith

/-- C10: `Spaceship.update` preserves `0 ≤ boostCharge ≤ maxBoostCharge`
(while boosting the charge is floored at 0, while idle it is capped at
`maxBoostCharge`), and consequently `getBoostPercentage` stays inside
`[0, 100]` after the step. -/
theorem boost_charge_bounds (dir : ℚ → ℚ × ℚ) (sh : Spaceship)
    (h0 : 0 ≤ sh.boostCharge) (h1 : sh.boostCharge ≤ sh.maxBoostCharge)
    (hrate : 0 ≤ sh.boostChargeRate) (hdecay : 0 ≤ sh.boostDecayRate)
    (hmax : 0 < sh.maxBoostCharge) :
    0 ≤ (sh.update dir).boostCharge ∧
    (sh.update dir).boostCharge ≤ (sh.update dir).maxBoostCharge ∧
    0 ≤ (sh.update dir).getBoostPercentage ∧
    (sh.update dir).getBoostPercentage ≤ 100 := by
  have hcharge : (sh.update dir).boostCharge =
      (stepBoost sh.keys sh.boostCharge sh.maxBoostCharge sh.boostChargeRate
        sh.boostDecayRate sh.isBoosting).1 := rfl
  have hmaxeq : (sh.update dir).maxBoostCharge = sh.maxBoostCharge := rfl
  obtain ⟨hb0, hb1⟩ := stepBoost_bound sh.keys sh.boostCharge sh.maxBoostCharge
    sh.boostChargeRate sh.boostDecayRate sh.isBoosting h0 h1 hrate hdecay
  refine ⟨by rw [hcharge]; exact hb0, by rw [hcharge, hmaxeq]; exact hb1, ?_, ?_⟩
  · unfold Spaceship.getBoostPercentage
    rw [hcharge, hmaxeq]
    positivity
  · unfold Spaceship.getBoostPercentage
    rw [hcharge, hmaxeq]
    have hdiv : (stepBoost sh.keys sh.boostCharge sh.maxBoostCharge
        sh.boostChargeRate sh.boostDecayRate sh.isBoosting).1 /
        sh.maxBoostCharge ≤ 1 := (div_le_one hmax).mpr hb1
    nlinarith

/-- Witness for `boost_charge_bounds` at the freshly constructed ship. -/
theorem boost_charge_bounds_witness :
    0 ≤ ((Spaceship.init 2500 2500 (3/10) 42 21).update dirX).boostCharge ∧
    ((Spaceship.init 2500 2500 (3/10) 42 21).update dirX).boostCharge ≤
      ((Spaceship.init 2500 2500 (3/10) 42 21).update dirX).maxBoostCharge ∧
    0 ≤ ((Spaceship.init 2500 2500 (3/10) 42 21).update dirX).getBoostPercentage ∧
    ((Spaceship.init 2500 2500 (3/10) 42 21).update dirX).getBoostPercentage ≤ 100 :=
  boost_charge_bounds dirX (Spaceship.init 2500 2500 (3/10) 42 21)
    (by norm_num [Spaceship.init]) (by norm_num [Spaceship.init])
    (by norm_num [Spaceship.init]) (by norm_num [Spaceship.init])
    (by norm_num [Spaceship.init])

end BoostBounds

/-! ### Static entities, registry, UI and game state -/

/-- Static entity (planet.js `Planet`): position and collision radius. The
`name` is drawn from a fixed pool at creation and used only in advisory
message text; description, color, rings and surface features are
display-only and omitted. -/
structure Planet where
  x : ℚ
  y : ℚ
  radius : ℚ
  name : String
deriving DecidableEq

/-- `checkCollision` (utils.js): `distance(obj1, obj2) < r1 + r2`. The square
root is nonnegative, so the comparison holds iff the radius sum is positive
and the squared distance is below its square; the embedding uses that exact
equivalence to stay in rational arithmetic. -/
def checkCollision (sh : Spaceship) (p : Planet) : Bool :=
  decide (0 < sh.radius + p.radius ∧
    (sh.x - p.x) ^ 2 + (sh.y - p.y) ^ 2 < (sh.radius + p.radius) ^ 2)

/-- The ship-vs-planet overlap resolution inside `EntityManager.update`
(EntityManager.js lines 86-107). `dist` stands for the computed
`Math.sqrt(dx*dx + dy*dy)`. The push direction comes from
`Math.cos/Math.sin` of `Math.atan2(dy, dx)`, which equal `dx / dist` and
`dy / dist` whenever `dist` is the true positive root, and `(1, 0)` when
`dx = dy = 0` (JavaScript has `Math.atan2(0, 0) = 0`). The JS
`ship.radius || 5` fallback kicks in when the radius is falsy (0). Only the
position is written: speed and rotation are untouched. -/
def collidePair (dist : ℚ) (sh : Spaceship) (p : Planet) : Spaceship :=
  let dx := sh.x - p.x
  let dy := sh.y - p.y
  let thr := p.radius + (if sh.radius = 0 then 5 else sh.radius)
  if dist < thr then
    let overlap := thr - dist
    let ux := if dist = 0 then 1 else dx / dist
    let uy := if dist = 0 then 0 else dy / dist
    { sh with
      x := sh.x + ux * overlap * (1/10)
      y := sh.y + uy * overlap * (1/10) }
  else sh

/-- Entity registry (EntityManager.js): owns all spaceships and planets in
insertion order. -/
structure EntityManagerS where
  spaceships : List Spaceship
  planets : List Planet
deriving DecidableEq

/-- `EntityManager.getPlayerShip` (EntityManager.js lines 53-56): the first
spaceship added is assumed to be the player. -/
def EntityManagerS.getPlayerShip (em : EntityManagerS) : Option Spaceship :=
  em.spaceships.head?

/-- `EntityManager.update` (EntityManager.js lines 80-114): each ship first
advances its own motion, then its overlap against every planet is resolved
in planet insertion order, each correction seeing the position left by the
previous one. `root` stands for `Math.sqrt`. -/
def EntityManagerS.update (root : ℚ → ℚ) (dir : ℚ → ℚ × ℚ)
    (em : EntityManagerS) : EntityManagerS :=
  { em with
    spaceships := em.spaceships.map (fun sh =>
      em.planets.foldl (fun s p =>
        collidePair (root ((s.x - p.x) ^ 2 + (s.y - p.y) ^ 2)) s p)
        (sh.update dir)) }

/-- Applies `f` to the player ship (the object returned by `getPlayerShip`,
i.e. `spaceships[0]`); the in-place JS mutation becomes replacing the head
of the list. -/
def updatePlayerHead (f : Spaceship → Spaceship) (em : EntityManagerS) :
    EntityManagerS :=
  match em.spaceships with
  | [] => em
  | p :: rest => { em with spaceships := f p :: rest }

/-- The `FLYING` member of the `GameState` enumeration (game.js line 16). -/
def GameState.FLYING : String := "FLYING"

/-- The `PLANET_VIEW` member of the `GameState` enumeration (game.js
line 17). -/
def GameState.PLANET_VIEW : String := "PLANET_VIEW"

/-- The own enumerable keys of the `GameState` object literal. -/
def gameStateOwnKeys : List String := ["FLYING", "PLANET_VIEW"]

/-- Properties that every plain object literal inherits from
`Object.prototype`; each of them holds a function (for `__proto__`, an
object), so indexing `GameState` with one of these names yields a truthy
value in JavaScript. -/
def objectPrototypeProps : List String :=
  ["constructor", "hasOwnProperty", "isPrototypeOf", "propertyIsEnumerable",
   "toLocaleString", "toString", "valueOf", "__defineGetter__",
   "__defineSetter__", "__lookupGetter__", "__lookupSetter__", "__proto__"]

/-- Truthiness of `GameState[newState]` (game.js line 115): property lookup
on a plain object literal consults the own properties and then the prototype
chain, so both the enumeration keys and the `Object.prototype` members
produce a truthy value. -/
def gameStateLookup (key : String) : Bool :=
  gameStateOwnKeys.contains key || objectPrototypeProps.contains key

/-- `Game.setGameState` (game.js lines 113-121) as a function of the
requested state and the current state: if `GameState[newState]` is truthy
the state is overwritten, otherwise an error is logged and the state is
kept. -/
def setGameStateStr (next cur : String) : String :=
  if gameStateLookup next then next else cur

/-- The UI collaborator as seen by the core: the currently displayed
advisory message, `none` when cleared (ui.js `showMessage`/`clearMessage`
manipulate `messageDisplay`). Timers and DOM classes are presentation. -/
structure UIS where
  message : Option String
deriving DecidableEq

/-- `UI.showMessage` (ui.js): overwrites the displayed message text. The
duration argument only drives a presentation timer and is not modelled. -/
def UIS.showMessage (msg : String) (ui : UIS) : UIS :=
  { ui with message := some msg }

/-- `UI.clearMessage` (ui.js lines 176-182 of the live copy). -/
def UIS.clearMessage (ui : UIS) : UIS :=
  { ui with message := none }

/-- Modelled from the spec: `UI.getCurrentMessage` is called by
`InteractionSystem.update` but its definition is missing from the sources
under src/ (only the caller appears). Per the spec the protocol inspects
"the last emitted message", so the model returns the currently displayed
message text, or the empty string when no message is shown. -/
def UIS.getCurrentMessage (ui : UIS) : String :=
  ui.message.getD ""

/-- Helper for `String.prototype.includes`: `sub` occurs contiguously in
`s`. -/
def charsContain (sub : List Char) : List Char → Bool
  | [] => sub.isEmpty
  | c :: tail => sub.isPrefixOf (c :: tail) || charsContain sub tail

/-- `String.prototype.includes`: contiguous substring containment. -/
def strContains (s sub : String) : Bool :=
  charsContain sub.toList s.toList

/-- The no-hover branch of `InteractionSystem.update` (part_001 lines
77-84): clear the advisory only when the current message is one of the
landing prompts (contains Press E or Slow down). -/
def noHoverClear (ui : UIS) : UIS :=
  if strContains ui.getCurrentMessage "Press E" ||
      strContains ui.getCurrentMessage "Slow down" then
    ui.clearMessage
  else ui

/-- The landing advisory shown while hovering slow enough. -/
def landMessage (n : String) : String := "Press E to land on " ++ n

/-- The landing advisory shown while hovering too fast. -/
def slowMessage (n : String) : String := "Slow down to land on " ++ n

/-- The short-lived departure message emitted by the leave callback. -/
def leftMessage (n : String) : String := "Left " ++ n

/-- The orchestrator state (game.js `Game`, the authoritative
state-machine + interaction-system version at lines 24-350): game state
string, registry, UI handle, camera, canvas and world dimensions.
`pendingPlanetInfo` models the `setTimeout(..., 100)` debounce that later
hands the hovered planet and the leave callback to `ui.showPlanetInfo`. -/
structure Game where
  gameState : String
  em : EntityManagerS
  ui : UIS
  cameraX : ℚ
  cameraY : ℚ
  canvasW : ℚ
  canvasH : ℚ
  worldW : ℚ
  worldH : ℚ
  pendingPlanetInfo : Option Planet
deriving DecidableEq

/-- `clamp` (utils.js). -/
def clamp (value lo hi : ℚ) : ℚ := min (max value lo) hi

/-- `InteractionSystem.update` (part_001 lines 25-85): inert unless FLYING;
resolve the player (no-op when absent); the first planet in insertion order
passing `checkCollision` is the hovered target; while hovering, re-emit the
landing advisory for the current eligibility, and on an eligible interact
press request PLANET_VIEW, clear the interact flag and schedule the modal
display; with no hover, conditionally clear the advisory. -/
def interactionUpdate (g : Game) : Game :=
  if g.gameState = GameState.FLYING then
    g.em.getPlayerShip.elim g (fun player =>
      (g.em.planets.find? (fun p => checkCollision player p)).elim
        { g with ui := noHoverClear g.ui }
        (fun planet =>
          let ui1 := g.ui.showMessage
            (if canLand player.speed player.maxSpeed then landMessage planet.name
             else slowMessage planet.name)
          if player.keys.e && canLand player.speed player.maxSpeed then
            { g with
              gameState := setGameStateStr GameState.PLANET_VIEW g.gameState
              em := updatePlayerHead
                (fun q => { q with keys := { q.keys with e := false } }) g.em
              ui := ui1
              pendingPlanetInfo := some planet }
          else { g with ui := ui1 }))
  else g

/-- The leave callback registered with `ui.showPlanetInfo` (part_001 lines
68-73): request FLYING, forcibly clear the interact flag again (the key-up
may have been missed while modal), and emit the departure message. -/
def leaveCallback (planet : Planet) (g : Game) : Game :=
  let g1 := { g with gameState := setGameStateStr GameState.FLYING g.gameState }
  let g2 := { g1 with
    em := updatePlayerHead
      (fun q => { q with keys := { q.keys with e := false } }) g1.em }
  { g2 with ui := g2.ui.showMessage (leftMessage planet.name) }

/-- Sets the player's interact flag (models key events arriving while
modal). -/
def setPlayerKeyE (b : Bool) (g : Game) : Game :=
  { g with
    em := updatePlayerHead
      (fun q => { q with keys := { q.keys with e := b } }) g.em }

/-- Reads the player's interact flag. -/
def playerKeyE (g : Game) : Option Bool :=
  g.em.getPlayerShip.map (fun q => q.keys.e)

/-- The render primitives handed to the presentation layer each frame. -/
inductive RenderOp
  | background
  | entities
  | minimap
deriving DecidableEq

/-- What one orchestrator frame did. -/
structure FrameLog where
  registryStepped : Bool
  interactionStepped : Bool
  renderOps : List RenderOp
deriving DecidableEq

/-- `Game.render` (game.js lines 256-282): unconditionally clears and draws
the star background, delegates the registry render pass, and draws the
minimap; recorded as the list of render primitives issued. -/
def Game.renderFrame (_g : Game) : List RenderOp :=
  [RenderOp.background, RenderOp.entities, RenderOp.minimap]

/-- `Game.update` (game.js lines 226-251): step the registry; if the player
is missing, return for this frame; otherwise run the interaction system,
recompute the camera as player position minus half viewport clamped into
world bounds, and clamp the player into world bounds. The boost meter write
is presentation-only. The returned flag records whether the interaction
system ran. -/
def Game.updateFrame (root : ℚ → ℚ) (dir : ℚ → ℚ × ℚ) (g : Game) :
    Game × Bool :=
  let em1 := g.em.update root dir
  let g1 := { g with em := em1 }
  em1.getPlayerShip.elim (g1, false) (fun player =>
    let g2 := interactionUpdate g1
    ({ g2 with
        cameraX := clamp (player.x - g.canvasW / 2) 0 (g.worldW - g.canvasW)
        cameraY := clamp (player.y - g.canvasH / 2) 0 (g.worldH - g.canvasH)
        em := updatePlayerHead
          (fun q => { q with x := clamp q.x 0 g.worldW, y := clamp q.y 0 g.worldH })
          g2.em },
      true))

/-- One frame of `Game.gameLoop` (game.js lines 204-220): game logic is
stepped only in the FLYING state; rendering happens every frame. -/
def Game.gameLoopStep (root : ℚ → ℚ) (dir : ℚ → ℚ × ℚ) (g : Game) :
    Game × FrameLog :=
  if g.gameState = GameState.FLYING then
    ((g.updateFrame root dir).1,
     { registryStepped := true
       interactionStepped := (g.updateFrame root dir).2
       renderOps := Game.renderFrame (g.updateFrame root dir).1 })
  else
    (g, { registryStepped := false, interactionStepped := false,
          renderOps := g.renderFrame })

/-- A fixed square-root oracle used for concrete evaluations. -/
def root0 : ℚ → ℚ := fun _ => 0

/-- A FLYING game with one player ship and no planets, used for concrete
frames. -/
def gW : Game where
  gameState := GameState.FLYING
  em := { spaceships := [Spaceship.init 2500 2500 (3/10) 42 21], planets := [] }
  ui := ⟨none⟩
  cameraX := 0
  cameraY := 0
  canvasW := 800
  canvasH := 600
  worldW := 5000
  worldH := 5000
  pendingPlanetInfo := none

section StateMachine

/-- C2 (divergence): `setGameState` validates via the truthiness of
`GameState[newState]`, which also accepts every name inherited from
`Object.prototype`. With the unrecognized value toString the state is
silently overwritten (first conjunct), even though toString is not a member
of the enumeration (second conjunct); genuinely absent names such as MARKET
are rejected, and recognized members are set and idempotent. -/
theorem setGameState_prototype_corruption :
    setGameStateStr "toString" GameState.FLYING = "toString" ∧
    "toString" ∉ gameStateOwnKeys ∧
    setGameStateStr "MARKET" GameState.FLYING = GameState.FLYING ∧
    setGameStateStr GameState.PLANET_VIEW GameState.FLYING =
      GameState.PLANET_VIEW ∧
    setGameStateStr GameState.PLANET_VIEW GameState.PLANET_VIEW =
      GameState.PLANET_VIEW := by
  refine ⟨?_, ?_, ?_, ?_, ?_⟩ <;> decide

end StateMachine

section CollisionSeparation

/-- C4: for a ship-planet pair whose center distance is below the radius sum
(`dist` being the exact nonnegative root of the squared offset, and the ship
radius nonzero as for every ship the game constructs), the correction leaves
speed and rotation untouched, translates the ship directly away from the
planet center by the damping fraction `overlap/10` (scaling the offset by
`1 + overlap/(10*dist)` when `dist > 0`), and strictly increases the
distance to the planet center. -/
theorem collision_monotonic_separation (sh : Spaceship) (p : Planet)
    (dist : ℚ) (hr : sh.radius ≠ 0) (hd0 : 0 ≤ dist)
    (hdsq : dist ^ 2 = (sh.x - p.x) ^ 2 + (sh.y - p.y) ^ 2)
    (hlt : dist < p.radius + sh.radius) :
    (collidePair dist sh p).speed = sh.speed ∧
    (collidePair dist sh p).rotation = sh.rotation ∧
    (0 < dist →
      (collidePair dist sh p).x - p.x =
        (1 + (p.radius + sh.radius - dist) / (10 * dist)) * (sh.x - p.x) ∧
      (collidePair dist sh p).y - p.y =
        (1 + (p.radius + sh.radius - dist) / (10 * dist)) * (sh.y - p.y)) ∧
    (∀ d2 : ℚ, 0 ≤ d2 →
      d2 ^ 2 = ((collidePair dist sh p).x - p.x) ^ 2 +
        ((collidePair dist sh p).y - p.y) ^ 2 →
      dist < d2) := by
  have hthr : (if sh.radius = 0 then (5:ℚ) else sh.radius) = sh.radius :=
    if_neg hr
  have hc : collidePair dist sh p =
      { sh with
        x := sh.x + (if dist = 0 then 1 else (sh.x - p.x) / dist) *
          ((p.radius + sh.radius) - dist) * (1/10)
        y := sh.y + (if dist = 0 then 0 else (sh.y - p.y) / dist) *
          ((p.radius + sh.radius) - dist) * (1/10) } := by
    unfold collidePair
    rw [hthr, if_pos hlt]
  refine ⟨by rw [hc], by rw [hc], ?_, ?_⟩
  · intro hpos
    have hne : dist ≠ 0 := ne_of_gt hpos
    rw [hc]
    constructor
    · show sh.x + (if dist = 0 then 1 else (sh.x - p.x) / dist) *
        ((p.radius + sh.radius) - dist) * (1/10) - p.x = _
      rw [if_neg hne]
      field_simp
      ring
    · show sh.y + (if dist = 0 then 0 else (sh.y - p.y) / dist) *
        ((p.radius + sh.radius) - dist) * (1/10) - p.y = _
      rw [if_neg hne]
      field_simp
      ring
  · intro d2 hd2 hsq2
    rcases eq_or_lt_of_le hd0 with heq | hpos
    · -- dist = 0: the push is along the x axis by thr/10
      have hzero : (sh.x - p.x) ^ 2 + (sh.y - p.y) ^ 2 = 0 := by
        rw [← hdsq, ← heq]
        ring
      have hx0 : sh.x - p.x = 0 := by
        have h1 := sq_nonneg (sh.x - p.x)
        have h2 := sq_nonneg (sh.y - p.y)
        have : (sh.x - p.x) ^ 2 = 0 := by linarith
        exact pow_eq_zero_iff (two_ne_zero) |>.mp this
      have hy0 : sh.y - p.y = 0 := by
        have h1 := sq_nonneg (sh.x - p.x)
        have h2 := sq_nonneg (sh.y - p.y)
        have : (sh.y - p.y) ^ 2 = 0 := by linarith
        exact pow_eq_zero_iff (two_ne_zero) |>.mp this
      have hthrpos : 0 < p.radius + sh.radius := by
        rw [← heq] at hlt
        exact hlt
      have hxnew : (collidePair dist sh p).x - p.x =
          (p.radius + sh.radius) / 10 := by
        rw [hc]
        show sh.x + (if dist = 0 then 1 else (sh.x - p.x) / dist) *
          ((p.radius + sh.radius) - dist) * (1/10) - p.x = _
        rw [if_pos heq.symm, ← heq]
        have : sh.x - p.x = 0 := hx0
        linarith [this]
      have hynew : (collidePair dist sh p).y - p.y = 0 := by
        rw [hc]
        show sh.y + (if dist = 0 then 0 else (sh.y - p.y) / dist) *
          ((p.radius + sh.radius) - dist) * (1/10) - p.y = _
        rw [if_pos heq.symm]
        linarith [hy0]
      rw [hxnew, hynew] at hsq2
      have hsqpos : 0 < d2 ^ 2 := by
        rw [hsq2]
        have : 0 < (p.radius + sh.radius) / 10 := by linarith
        nlinarith
      have hd2ne : d2 ≠ 0 := by
        intro hz
        rw [hz] at hsqpos
        norm_num at hsqpos
      rw [← heq]
      exact lt_of_le_of_ne hd2 (Ne.symm hd2ne)
    · -- 0 < dist: the offset is scaled by k = 1 + overlap/(10*dist) > 1
      have hne : dist ≠ 0 := ne_of_gt hpos
      have hov : 0 < p.radius + sh.radius - dist := by linarith
      have hkpos : 0 < (p.radius + sh.radius - dist) / (10 * dist) :=
        div_pos hov (by linarith)
      have hxnew : (collidePair dist sh p).x - p.x =
          (1 + (p.radius + sh.radius - dist) / (10 * dist)) * (sh.x - p.x) := by
        rw [hc]
        show sh.x + (if dist = 0 then 1 else (sh.x - p.x) / dist) *
          ((p.radius + sh.radius) - dist) * (1/10) - p.x = _
        rw [if_neg hne]
        field_simp
        ring
      have hynew : (collidePair dist sh p).y - p.y =
          (1 + (p.radius + sh.radius - dist) / (10 * dist)) * (sh.y - p.y) := by
        rw [hc]
        show sh.y + (if dist = 0 then 0 else (sh.y - p.y) / dist) *
          ((p.radius + sh.radius) - dist) * (1/10) - p.y = _
        rw [if_neg hne]
        field_simp
        ring
      set k := 1 + (p.radius + sh.radius - dist) / (10 * dist) with hk
      have hk1 : 1 < k := by
        rw [hk]
        linarith
      have hsqk : d2 ^ 2 = (k * dist) ^ 2 := by
        rw [hsq2, hxnew, hynew]
        calc (k * (sh.x - p.x)) ^ 2 + (k * (sh.y - p.y)) ^ 2
            = k ^ 2 * ((sh.x - p.x) ^ 2 + (sh.y - p.y) ^ 2) := by ring
          _ = k ^ 2 * dist ^ 2 := by rw [← hdsq]
          _ = (k * dist) ^ 2 := by ring
      by_contra hnot
      push_neg at hnot
      have hkd : dist < k * dist := by nlinarith
      have h1 : d2 ^ 2 ≤ dist ^ 2 := by nlinarith
      have h2 : dist ^ 2 < (k * dist) ^ 2 := by nlinarith
      rw [hsqk] at h1
      linarith

/-- A ship at offset (30, 40) from a planet of radius 50: the true center
distance is 50, below the radius sum 60. -/
def shipC4 : Spaceship := Spaceship.init 30 40 (3/10) 20 10

/-- The planet used in the collision witness. -/
def planetC4 : Planet := ⟨0, 0, 50, "Xenon"⟩

/-- Witness for `collision_monotonic_separation`: the corrected position
(30.6, 40.8) has distance 51 from the planet center, strictly more than
50. -/
theorem collision_monotonic_separation_witness :
    (collidePair 50 shipC4 planetC4).speed = shipC4.speed ∧ (50 : ℚ) < 51 := by
  have h := collision_monotonic_separation shipC4 planetC4 50
    (by norm_num [shipC4, Spaceship.init])
    (by norm_num)
    (by norm_num [shipC4, planetC4, Spaceship.init])
    (by norm_num [shipC4, planetC4, Spaceship.init])
  refine ⟨h.1, h.2.2.2 51 (by norm_num) ?_⟩
  norm_num [collidePair, shipC4, planetC4, Spaceship.init]

end CollisionSeparation

section FrameGating

/-- C6: in any frame with a player present, the registry step and the
interaction protocol run if and only if the state is FLYING (in PLANET_VIEW
the whole world is frozen), while the background, the registry render pass
and the minimap are rendered every frame regardless of state. -/
theorem frame_gating (root : ℚ → ℚ) (dir : ℚ → ℚ × ℚ) (g : Game)
    (hplayer : g.em.spaceships ≠ []) :
    ((g.gameLoopStep root dir).2.registryStepped = true ↔
      g.gameState = GameState.FLYING) ∧
    ((g.gameLoopStep root dir).2.interactionStepped = true ↔
      g.gameState = GameState.FLYING) ∧
    (g.gameLoopStep root dir).2.renderOps =
      [RenderOp.background, RenderOp.entities, RenderOp.minimap] := by
  by_cases h : g.gameState = GameState.FLYING
  · have hne : (g.em.update root dir).spaceships ≠ [] := by
      simp only [EntityManagerS.update]
      simpa using hplayer
    obtain ⟨p1, rest, hps⟩ : ∃ p1 rest,
        (g.em.update root dir).spaceships = p1 :: rest := by
      cases hh : (g.em.update root dir).spaceships with
      | nil => exact absurd hh hne
      | cons a l => exact ⟨a, l, rfl⟩
    have hhead : (g.em.update root dir).getPlayerShip = some p1 := by
      simp [EntityManagerS.getPlayerShip, hps]
    simp [Game.gameLoopStep, h, Game.updateFrame, hhead, Game.renderFrame]
  · simp [Game.gameLoopStep, h, Game.renderFrame]

/-- Witness for `frame_gating`: the concrete FLYING game steps its registry. -/
theorem frame_gating_witness :
    (gW.gameLoopStep root0 dirX).2.registryStepped = true :=
  (frame_gating root0 dirX gW (by simp [gW])).1.mpr rfl

end FrameGating

section ModalRoundtrip

/-- C7: from a FLYING state, with the player hovering a planet, eligible to
land and holding the interact key, the interaction step enters PLANET_VIEW;
invoking the leave callback afterwards returns the state to FLYING and
forces the interact flag to false whatever its value was right before the
callback ran. -/
theorem modal_roundtrip (g : Game) (player : Spaceship) (planet : Planet)
    (hstate : g.gameState = GameState.FLYING)
    (hplayer : g.em.getPlayerShip = some player)
    (hhover : g.em.planets.find? (fun p => checkCollision player p) =
      some planet)
    (he : player.keys.e = true)
    (hland : canLand player.speed player.maxSpeed = true) :
    (interactionUpdate g).gameState = GameState.PLANET_VIEW ∧
    ∀ b : Bool,
      (leaveCallback planet (setPlayerKeyE b (interactionUpdate g))).gameState =
        GameState.FLYING ∧
      playerKeyE (leaveCallback planet (setPlayerKeyE b (interactionUpdate g))) =
        some false := by
  have hlookPV : gameStateLookup GameState.PLANET_VIEW = true := by decide
  have hlookF : gameStateLookup GameState.FLYING = true := by decide
  obtain ⟨rest, hrest⟩ : ∃ rest, g.em.spaceships = player :: rest := by
    cases hh : g.em.spaceships with
    | nil =>
      rw [EntityManagerS.getPlayerShip, hh] at hplayer
      simp at hplayer
    | cons a l =>
      rw [EntityManagerS.getPlayerShip, hh] at hplayer
      simp only [List.head?_cons, Option.some.injEq] at hplayer
      exact ⟨l, by rw [hplayer]⟩
  have hiu : interactionUpdate g =
      { g with
        gameState := setGameStateStr GameState.PLANET_VIEW g.gameState
        em := updatePlayerHead
          (fun q => { q with keys := { q.keys with e := false } }) g.em
        ui := g.ui.showMessage
          (if canLand player.speed player.maxSpeed then landMessage planet.name
           else slowMessage planet.name)
        pendingPlanetInfo := some planet } := by
    unfold interactionUpdate
    rw [if_pos hstate, hplayer, Option.elim_some, hhover, Option.elim_some]
    simp only [he, hland, Bool.and_self, if_true]
  constructor
  · rw [hiu]
    simp [setGameStateStr, hlookPV]
  · intro b
    constructor
    · simp [leaveCallback, setGameStateStr, hlookF]
    · simp [playerKeyE, leaveCallback, setPlayerKeyE, hiu, updatePlayerHead,
        EntityManagerS.getPlayerShip, hrest]

/-- The player ship of the round-trip witness: at world center, at rest,
holding the interact key. -/
def shipE : Spaceship :=
  { Spaceship.init 2500 2500 (3/10) 42 21 with
    keys := ⟨false, false, false, false, false, true⟩ }

/-- The hovered planet of the round-trip witness, directly under the ship. -/
def planetE : Planet := ⟨2500, 2500, 50, "Solaris"⟩

/-- The FLYING game of the round-trip witness. -/
def gLand : Game where
  gameState := GameState.FLYING
  em := { spaceships := [shipE], planets := [planetE] }
  ui := ⟨none⟩
  cameraX := 0
  cameraY := 0
  canvasW := 800
  canvasH := 600
  worldW := 5000
  worldH := 5000
  pendingPlanetInfo := none

/-- Witness for `modal_roundtrip` on the concrete eligible landing. -/
theorem modal_roundtrip_witness :
    (interactionUpdate gLand).gameState = GameState.PLANET_VIEW ∧
    (leaveCallback planetE (setPlayerKeyE true (interactionUpdate gLand))).gameState =
      GameState.FLYING := by
  have hcc : checkCollision shipE planetE = true := by
    norm_num [checkCollision, shipE, planetE, Spaceship.init]
  have hhover : gLand.em.planets.find? (fun p => checkCollision shipE p) =
      some planetE := by
    show List.find? _ [planetE] = some planetE
    rw [List.find?_cons_of_pos _ hcc]
  have hland : canLand shipE.speed shipE.maxSpeed = true := by
    norm_num [canLand, shipE, Spaceship.init]
  have h := modal_roundtrip gLand shipE planetE rfl rfl hhover rfl hland
  exact ⟨h.1, (h.2 true).1⟩

end ModalRoundtrip

section CameraClamp

/-- C9 (counterexample): the camera is not recomputed on every frame. In the
concrete game `gPV` the state is PLANET_VIEW, the player sits at
x = 2500 and the camera at 0; after one `gameLoop` frame the camera is still
0, not the claimed `clamp(2500 - 800/2, 0, 5000 - 800) = 2100`. -/
theorem camera_not_recomputed_in_planet_view :
    ¬ ((Game.gameLoopStep root0 dirX
          { gameState := GameState.PLANET_VIEW
            em := { spaceships := [Spaceship.init 2500 2500 (3/10) 42 21],
                    planets := [] }
            ui := ⟨none⟩
            cameraX := 0
            cameraY := 0
            canvasW := 800
            canvasH := 600
            worldW := 5000
            worldH := 5000
            pendingPlanetInfo := none }).1.cameraX =
        clamp (2500 - 800 / 2) 0 (5000 - 800)) := by
  have h1 : (Game.gameLoopStep root0 dirX
      { gameState := GameState.PLANET_VIEW
        em := { spaceships := [Spaceship.init 2500 2500 (3/10) 42 21],
                planets := [] }
        ui := ⟨none⟩
        cameraX := 0
        cameraY := 0
        canvasW := 800
        canvasH := 600
        worldW := 5000
        worldH := 5000
        pendingPlanetInfo := none }).1.cameraX = 0 := by
    unfold Game.gameLoopStep
    rw [if_neg (by decide)]
  have h2 : clamp ((2500 : ℚ) - 800 / 2) 0 (5000 - 800) = 2100 := by
    norm_num [clamp]
  rw [h1, h2]
  norm_num

/-- C9 (amended): the camera is recomputed as the post-step player position
minus half the viewport, clamped into `[0, world - viewport]`, exactly on
frames processed in the FLYING state with a player present; on frames in any
other state the camera keeps its previous value. -/
theorem camera_follows_player_when_flying (root : ℚ → ℚ) (dir : ℚ → ℚ × ℚ)
    (g : Game) (p1 : Spaceship)
    (hp : (g.em.update root dir).getPlayerShip = some p1) :
    (g.gameState = GameState.FLYING →
      (g.gameLoopStep root dir).1.cameraX =
        clamp (p1.x - g.canvasW / 2) 0 (g.worldW - g.canvasW) ∧
      (g.gameLoopStep root dir).1.cameraY =
        clamp (p1.y - g.canvasH / 2) 0 (g.worldH - g.canvasH)) ∧
    (g.gameState ≠ GameState.FLYING →
      (g.gameLoopStep root dir).1.cameraX = g.cameraX ∧
      (g.gameLoopStep root dir).1.cameraY = g.cameraY) := by
  constructor
  · intro h
    simp [Game.gameLoopStep, h, Game.updateFrame, hp]
  · intro h
    simp [Game.gameLoopStep, h]

/-- Witness for `camera_follows_player_when_flying` on the concrete FLYING
game. -/
theorem camera_follows_player_when_flying_witness :
    (gW.gameLoopStep root0 dirX).1.cameraX =
      clamp (((Spaceship.init 2500 2500 (3/10) 42 21).update dirX).x -
        gW.canvasW / 2) 0 (gW.worldW - gW.canvasW) :=
  ((camera_follows_player_when_flying root0 dirX gW
    ((Spaceship.init 2500 2500 (3/10) 42 21).update dirX) rfl).1 rfl).1

end CameraClamp

/-! ### World generation -/

/-- A planet as placed by world generation: `Game.generateWorld` draws all
of `x`, `y`, `radius` from `randomInt`, so the placement model works in `ℤ`.
The cosmetic constructor fields (name, description, color, rings, features)
come from separate `Math.random` draws and never influence placement. -/
structure GenPlanet where
  x : ℤ
  y : ℤ
  radius : ℤ
deriving DecidableEq

/-- `randomInt` (utils.js): `Math.floor(Math.random() * (max - min + 1)) +
min`. The parameter `r` indexes the successive draws of the random stream;
the modulus reproduces the codomain `[lo, hi]` (for `lo ≤ hi`). -/
def randomInt (lo hi : ℤ) (r : ℕ) : ℤ :=
  lo + ((r % (hi - lo + 1).toNat : ℕ) : ℤ)

/-- Embeds the comparison `distance(x1,y1,x2,y2) < m` of generateWorld
(game.js lines 171-185) in integer arithmetic: the square root is
nonnegative, so it is below `m` iff `m` is positive and the squared distance
is below `m²`. -/
def jsDistLtZ (dx dy m : ℤ) : Bool :=
  decide (0 < m ∧ dx ^ 2 + dy ^ 2 < m ^ 2)

/-- The validity check of one placement attempt (game.js lines 168-187): no
conflict with any already placed planet (`dist < r + p.radius + 200` breaks
validity) and not within 300 of the player start point. The source loop
falsifies `validPosition` on the first conflict, which is the same as
requiring all checks to pass. -/
def validSpot (x y r sx sy : ℤ) (acc : List GenPlanet) : Bool :=
  acc.all (fun p => ! jsDistLtZ (x - p.x) (y - p.y) (r + p.radius + 200)) &&
  ! jsDistLtZ (x - sx) (y - sy) 300

/-- The retry loop for one planet slot (game.js lines 162-188): up to `fuel`
attempts (50 in the source), each drawing radius, x and y (consuming three
stream positions starting at `k`) and testing validity; returns the placed
planet and the next stream position, or `none` when the budget is
exhausted. -/
def tryPlace (rng : ℕ → ℕ) (sx sy wW wH : ℤ) :
    ℕ → ℕ → List GenPlanet → Option (GenPlanet × ℕ)
  | 0, _, _ => none
  | fuel + 1, k, acc =>
    let r := randomInt 40 100 (rng k)
    let x := randomInt (r * 2) (wW - r * 2) (rng (k + 1))
    let y := randomInt (r * 2) (wH - r * 2) (rng (k + 2))
    if validSpot x y r sx sy acc then some (⟨x, y, r⟩, k + 3)
    else tryPlace rng sx sy wW wH fuel (k + 3) acc

/-- The slot loop of `Game.generateWorld` (game.js lines 155-197): for each
of the `n` slots, either a planet is placed and appended to the accumulator
(which doubles as the conflict-check list, like `currentPlanets`), or the
slot is skipped with a logged warning (counted in `warns`) and generation
continues with the remaining slots. A failed slot consumes 50 × 3 stream
positions. -/
def genPlanets (rng : ℕ → ℕ) (sx sy wW wH : ℤ) :
    ℕ → ℕ → List GenPlanet → ℕ → List GenPlanet × ℕ
  | 0, _, acc, warns => (acc, warns)
  | n + 1, k, acc, warns =>
    (tryPlace rng sx sy wW wH 50 k acc).elim
      (genPlanets rng sx sy wW wH n (k + 150) acc (warns + 1))
      (fun pk => genPlanets rng sx sy wW wH n pk.2 (acc ++ [pk.1]) warns)

/-- `Game.generateWorld` (game.js lines 147-198): `randomInt(8, 12)` slots,
starting from an empty registry (the constructor calls it exactly once,
before any planet exists); `(sx, sy)` is the player start point. Star
creation and the cosmetic constructor draws are separate stream positions
and are omitted (a re-indexing of the stream). Returns the placed planets
and the number of skipped slots. -/
def generateWorld (rng : ℕ → ℕ) (sx sy wW wH : ℤ) : List GenPlanet × ℕ :=
  genPlanets rng sx sy wW wH (randomInt 8 12 (rng 0)).toNat 1 [] 0

/-- Two planets are separated by at least the margin: center distance at
least `r₁ + r₂ + 200` (stated on squares, equivalently). -/
def separated (p q : GenPlanet) : Prop :=
  (p.radius + q.radius + 200) ^ 2 ≤ (p.x - q.x) ^ 2 + (p.y - q.y) ^ 2

instance (p q : GenPlanet) : Decidable (separated p q) := by
  unfold separated
  infer_instance

/-- A planet keeps the 300 clearance from the start point. -/
def clearOf (sx sy : ℤ) (p : GenPlanet) : Prop :=
  (300 : ℤ) ^ 2 ≤ (p.x - sx) ^ 2 + (p.y - sy) ^ 2

instance (sx sy : ℤ) (p : GenPlanet) : Decidable (clearOf sx sy p) := by
  unfold clearOf
  infer_instance

/-- Helper: `randomInt` never goes below its lower bound. -/
theorem randomInt_lower (lo hi : ℤ) (r : ℕ) : lo ≤ randomInt lo hi r := by
  unfold randomInt
  have h : (0 : ℤ) ≤ ((r % (hi - lo + 1).toNat : ℕ) : ℤ) := Int.ofNat_nonneg _
  linarith

/-- Helper: separation is symmetric. -/
theorem separated_symm {p q : GenPlanet} (h : separated p q) : separated q p := by
  unfold separated at h ⊢
  have h1 : (q.x - p.x) ^ 2 = (p.x - q.x) ^ 2 := by ring
  have h2 : (q.y - p.y) ^ 2 = (p.y - q.y) ^ 2 := by ring
  have h3 : q.radius + p.radius + 200 = p.radius + q.radius + 200 := by ring
  rw [h1, h2, h3]
  exact h

/-- Helper: a spot accepted by `validSpot` is separated from every planet of
the accumulator and clear of the start point (the radii being nonnegative
makes the squared comparison equivalent to the distance comparison). -/
theorem validSpot_sound (x y r sx sy : ℤ) (acc : List GenPlanet)
    (hv : validSpot x y r sx sy acc = true)
    (hacc : ∀ q ∈ acc, 0 ≤ q.radius) (hr : 0 ≤ r) :
    (∀ q ∈ acc, separated ⟨x, y, r⟩ q) ∧ clearOf sx sy ⟨x, y, r⟩ := by
  unfold validSpot at hv
  rw [Bool.and_eq_true] at hv
  obtain ⟨hall, hclear⟩ := hv
  constructor
  · intro q hq
    have hb := List.all_eq_true.mp hall q hq
    rw [Bool.not_eq_true'] at hb
    unfold jsDistLtZ at hb
    rw [decide_eq_false_iff_not] at hb
    push_neg at hb
    have hm : (0 : ℤ) < r + q.radius + 200 := by
      have := hacc q hq
      linarith
    exact hb hm
  · rw [Bool.not_eq_true'] at hclear
    unfold jsDistLtZ at hclear
    rw [decide_eq_false_iff_not] at hclear
    push_neg at hclear
    exact hclear (by norm_num)

/-- Helper: a planet returned by the retry loop has radius at least 40, is
separated from every accumulator planet, and keeps the start clearance. -/
theorem tryPlace_sound (rng : ℕ → ℕ) (sx sy wW wH : ℤ) :
    ∀ (fuel k : ℕ) (acc : List GenPlanet) (p : GenPlanet) (k2 : ℕ),
    (∀ q ∈ acc, 0 ≤ q.radius) →
    tryPlace rng sx sy wW wH fuel k acc = some (p, k2) →
    40 ≤ p.radius ∧ (∀ q ∈ acc, separated p q) ∧ clearOf sx sy p
  | 0, k, acc, p, k2, hacc, h => by simp [tryPlace] at h
  | fuel + 1, k, acc, p, k2, hacc, h => by
    rw [tryPlace] at h
    split_ifs at h with hv
    · rw [Option.some.injEq, Prod.mk.injEq] at h
      obtain ⟨hp, hk⟩ := h
      subst hp
      have hr40 : (40 : ℤ) ≤ randomInt 40 100 (rng k) := randomInt_lower 40 100 (rng k)
      have hs := validSpot_sound _ _ _ sx sy acc hv hacc (by linarith)
      exact ⟨hr40, hs.1, hs.2⟩
    · exact tryPlace_sound rng sx sy wW wH fuel (k + 3) acc p k2 hacc h

/-- Helper: invariant of the slot loop: pairwise separation, start
clearance, nonnegative radii, and one placed planet or one warning per
slot. -/
theorem genPlanets_sound (rng : ℕ → ℕ) (sx sy wW wH : ℤ) :
    ∀ (n k warns : ℕ) (acc : List GenPlanet),
    (∀ q ∈ acc, 0 ≤ q.radius) →
    List.Pairwise separated acc →
    (∀ q ∈ acc, clearOf sx sy q) →
    List.Pairwise separated (genPlanets rng sx sy wW wH n k acc warns).1 ∧
    (∀ q ∈ (genPlanets rng sx sy wW wH n k acc warns).1, clearOf sx sy q) ∧
    (genPlanets rng sx sy wW wH n k acc warns).1.length +
      (genPlanets rng sx sy wW wH n k acc warns).2 =
      acc.length + warns + n
  | 0, k, warns, acc, hrad, hpw, hclr => by
    rw [genPlanets]
    exact ⟨hpw, hclr, by dsimp only; omega⟩
  | n + 1, k, warns, acc, hrad, hpw, hclr => by
    rw [genPlanets]
    rcases htp : tryPlace rng sx sy wW wH 50 k acc with _ | ⟨p, k2⟩
    · rw [Option.elim_none]
      have ih := genPlanets_sound rng sx sy wW wH n (k + 150) (warns + 1) acc
        hrad hpw hclr
      exact ⟨ih.1, ih.2.1, by omega⟩
    · rw [Option.elim_some]
      dsimp only
      obtain ⟨h40, hsep, hclear⟩ :=
        tryPlace_sound rng sx sy wW wH 50 k acc p k2 hrad htp
      have hrad' : ∀ q ∈ acc ++ [p], 0 ≤ q.radius := by
        intro q hq
        rcases List.mem_append.mp hq with hq | hq
        · exact hrad q hq
        · rw [List.mem_singleton.mp hq]
          linarith
      have hpw' : List.Pairwise separated (acc ++ [p]) := by
        rw [List.pairwise_append]
        refine ⟨hpw, List.pairwise_singleton _ _, ?_⟩
        intro a ha b hb
        rw [List.mem_singleton.mp hb]
        exact separated_symm (hsep a ha)
      have hclr' : ∀ q ∈ acc ++ [p], clearOf sx sy q := by
        intro q hq
        rcases List.mem_append.mp hq with hq | hq
        · exact hclr q hq
        · rw [List.mem_singleton.mp hq]
          exact hclear
      have ih := genPlanets_sound rng sx sy wW wH n k2 warns (acc ++ [p])
        hrad' hpw' hclr'
      refine ⟨ih.1, ih.2.1, ?_⟩
      have := ih.2.2
      rw [List.length_append, List.length_singleton] at this
      omega

/-- C5: for every random stream, start point and world size, the planets
placed by `generateWorld` are pairwise separated by at least
`radius_i + radius_j + 200` and keep the 300 clearance from the start point,
and each of the `randomInt(8, 12)` slots either contributes one planet or is
skipped with one warning after its 50-attempt budget (placed + skipped =
slots, generation continuing past failed slots). -/
theorem worldgen_separation_clearance (rng : ℕ → ℕ) (sx sy wW wH : ℤ) :
    (∀ i j (hi : i < (generateWorld rng sx sy wW wH).1.length)
       (hj : j < (generateWorld rng sx sy wW wH).1.length), i ≠ j →
       separated ((generateWorld rng sx sy wW wH).1.get ⟨i, hi⟩)
         ((generateWorld rng sx sy wW wH).1.get ⟨j, hj⟩)) ∧
    (∀ p ∈ (generateWorld rng sx sy wW wH).1, clearOf sx sy p) ∧
    (generateWorld rng sx sy wW wH).1.length +
      (generateWorld rng sx sy wW wH).2 = (randomInt 8 12 (rng 0)).toNat := by
  have h := genPlanets_sound rng sx sy wW wH (randomInt 8 12 (rng 0)).toNat 1 0 []
    (by simp) List.Pairwise.nil (by simp)
  have hgen : generateWorld rng sx sy wW wH =
      genPlanets rng sx sy wW wH (randomInt 8 12 (rng 0)).toNat 1 [] 0 := rfl
  rw [hgen]
  refine ⟨?_, h.2.1, by have := h.2.2; simpa using this⟩
  intro i j hi hj hne
  have hpw := h.1
  rw [List.pairwise_iff_get] at hpw
  rcases Nat.lt_or_ge i j with hij | hij
  · exact hpw ⟨i, hi⟩ ⟨j, hj⟩ hij
  · have hji : j < i := by omega
    exact separated_symm (hpw ⟨j, hj⟩ ⟨i, hi⟩ hji)

/-- A concrete random stream: 8 slots, every slot succeeding on its first
attempt with radius 40 at (80 + 500·slot, 80). -/
def rngW : ℕ → ℕ := fun k =>
  if k = 0 then 0
  else if (k - 1) % 3 = 1 then 500 * ((k - 1) / 3) else 0

/-- Witness for `worldgen_separation_clearance`: the first two planets of
the concrete world are separated. -/
theorem worldgen_separation_clearance_witness :
    separated ((generateWorld rngW 2500 2500 5000 5000).1.getD 0 ⟨0, 0, 0⟩)
      ((generateWorld rngW 2500 2500 5000 5000).1.getD 1 ⟨0, 0, 0⟩) := by
  have hlen : (generateWorld rngW 2500 2500 5000 5000).1.length = 8 := by decide
  have h := (worldgen_separation_clearance rngW 2500 2500 5000 5000).1 0 1
    (by omega) (by omega) (by norm_num)
  rw [List.getD_eq_getElem _ _ (by omega), List.getD_eq_getElem _ _ (by omega)]
  simpa [List.get_eq_getElem] using h

/-! ### Advisory messages -/

/-- The fixed planet name pool (planet.js `PLANET_NAMES`). -/
def PLANET_NAMES : List String :=
  ["Xenon", "Nebuloria", "Astralus", "Celestis", "Novastella",
   "Quasaria", "Lunaris", "Pulsaria", "Graviton", "Solaris"]

/-- The landing advisories the interaction protocol can emit (both variants,
over the name pool). -/
def landingAdvisories : List String :=
  PLANET_NAMES.map landMessage ++ PLANET_NAMES.map slowMessage

/-- Every message the system can emit: the landing advisories and the
departure messages. -/
def systemMessages : List String :=
  landingAdvisories ++ PLANET_NAMES.map leftMessage

/-- C8: on a frame with no hovered planet, the interaction protocol clears
the current advisory iff the last emitted message was a landing advisory
(the may-land or slow-down variant); any other message the system can show
(the departure messages) is left unchanged by this path. -/
theorem advisory_clear_iff :
    ∀ msg ∈ systemMessages,
      ((noHoverClear ⟨some msg⟩).message = none ↔ msg ∈ landingAdvisories) ∧
      (msg ∉ landingAdvisories →
        (noHoverClear ⟨some msg⟩).message = some msg) := by
  decide

/-- Witness for `advisory_clear_iff`: a departure message is not cleared. -/
theorem advisory_clear_iff_witness :
    (noHoverClear ⟨some (leftMessage "Xenon")⟩).message =
      some (leftMessage "Xenon") :=
  (advisory_clear_iff (leftMessage "Xenon") (by decide)).2 (by decide)
